import Mathlib

/-!
Verification of the apollo-gateway orchestration layer
(packages/apollo-gateway/src/index.ts) via a shallow embedding.

The gateway class `ApolloGateway` is modelled as explicit state passing:
a `GatewayState` value holds the mutable instance fields (`schema`,
`isReady`, `serviceMap`, `queryPlanStore`), together with two observation
channels that stand in for the side effects of the source — the log
entries written through `this.logger`, and the observability callbacks
invoked (recorded as structured `CallbackEvent` values rather than as
function calls, with a boolean per callback in the config recording
whether that callback is configured).

Collaborators imported from modules that are not part of the orchestration
file (`composeAndValidate` from the federation package, `buildQueryPlan`,
`executeQueryPlan`, `serializeQueryPlan`, the remote service-definition
loader) are abstracted as fields of an `Env` record: the theorems below
quantify over every possible behaviour of these collaborators, and the
witnesses instantiate them with small concrete functions.

Modelled from the spec: the plan cache (`InMemoryLRUCache` from the
apollo-server-caching package, not under src/) is modelled as an
association list keyed by the query fingerprint, per section 4.2 of the
spec (`get(fingerprint) -> QueryPlan|absent`, `set(fingerprint, plan)`).
Its byte-budget LRU eviction policy is not modelled; no claim settled
here depends on eviction, only on the keying and on who mutates the cache.
-/

namespace ApolloGateway

/-- A structured GraphQL error, reduced to its message. -/
structure GraphQLError where
  message : String
deriving DecidableEq, Repr

/-- A service definition as consumed by composition:
name, optional url, and the partial schema document. -/
structure ServiceDefinition where
  name : String
  url : Option String
  typeDefs : String
deriving DecidableEq, Repr

/-- A field resolver reference. The orchestration layer only ever installs
`defaultFieldResolverWithAliasSupport`; other resolvers are opaque. -/
inductive Resolver where
  | defaultFieldResolverWithAliasSupport
  | custom (id : Nat)
deriving DecidableEq, Repr

/-- A field of a schema type: its name and its (optional) resolver. -/
structure FieldDef where
  name : String
  resolve : Option Resolver
deriving DecidableEq, Repr

/-- A type in the schema type map, with the two predicates the wrapping
code consults (`isObjectType`, `isIntrospectionType`) made explicit. -/
structure TypeDef where
  name : String
  isObject : Bool
  isIntrospection : Bool
  fields : List FieldDef
deriving DecidableEq, Repr

/-- A GraphQL schema, reduced to its type map (the only part the
orchestration layer inspects, via `schema.getTypeMap()`). -/
structure GraphQLSchema where
  typeMap : List TypeDef
deriving DecidableEq, Repr

/-- A request-capable service handle: either the default
`RemoteGraphQLDataSource` built from the service url, or a handle built
by a user-supplied `buildService` function (opaque). -/
inductive GraphQLDataSource where
  | remote (url : Option String)
  | custom (id : Nat)
deriving DecidableEq, Repr

/-- A query plan. Plan construction and execution live outside the
orchestration file; here a plan is an opaque identity, which is all the
orchestration layer ever moves around. -/
structure QueryPlan where
  planId : Nat
deriving DecidableEq, Repr

/-- Modelled from the spec: `buildOperationContext` (from
./buildQueryPlan, not under src/) packages the schema snapshot, the
operation document and the selected operation name, per section 3 of the
spec (OperationContext). -/
structure OperationContext where
  schema : GraphQLSchema
  document : String
  operationName : Option String
deriving DecidableEq, Repr

def buildOperationContext (schema : GraphQLSchema) (document : String)
    (operationName : Option String) : OperationContext :=
  { schema := schema, document := document, operationName := operationName }

/-- The http part of an inbound request: its headers. -/
structure RequestHTTP where
  headers : List (String × String)
deriving DecidableEq, Repr

/-- The inbound GraphQL request, reduced to the parts the executor
reads: operation name, variables, and the optional http envelope. -/
structure GraphQLRequest where
  operationName : Option String
  variableValues : List (String × String)
  http : Option RequestHTTP
deriving DecidableEq, Repr

/-- The request context handed to the executor: the request, the parsed
document (kept abstract as its text) and the stable query hash. -/
structure RequestContext where
  request : GraphQLRequest
  document : String
  queryHash : String
deriving DecidableEq, Repr

/-- Modelled from the spec: `executeQueryPlan` (from ./executeQueryPlan,
not under src/) returns an ExecutionResponse of data plus errors, per
sections 3 and 4.4 of the spec; it carries no extensions. -/
structure ExecutionResponseCore where
  data : Option String
  errors : List GraphQLError
deriving DecidableEq, Repr

/-- The result the executor returns to the request-serving layer:
data, errors, and optional extensions (the serialized query plan). -/
structure GraphQLExecutionResult where
  data : Option String
  errors : List GraphQLError
  extensions : Option (List (String × String))
deriving DecidableEq, Repr

/-- A log entry written through `this.logger`. -/
inductive LogEntry where
  | debug (msg : String)
  | warn (msg : String)
deriving DecidableEq, Repr

/-- An invocation of one of the experimental observability callbacks,
recorded with the arguments the source passes. -/
inductive CallbackEvent where
  | didResolveQueryPlan (queryPlan : QueryPlan)
  | didFailComposition (errors : List GraphQLError)
      (serviceList : List ServiceDefinition)
  | didUpdateSchema (previousSchema : Option GraphQLSchema)
      (currentSchema : GraphQLSchema)
  | didUpdateServiceList (previousServiceConfig : List ServiceDefinition)
      (currentServiceConfig : List ServiceDefinition)
deriving DecidableEq, Repr

/-- The gateway configuration. Callback options are modelled as the
boolean of whether the callback is configured (invocations are recorded
in the state as `CallbackEvent`s); `experimental_getServiceList`, which
the source awaits for its list of definitions, is modelled as the list
it would return. -/
structure GatewayConfig where
  debug : Bool := false
  exposeQueryPlanExperimental : Option Bool := none
  buildService : Option (ServiceDefinition → GraphQLDataSource) := none
  serviceList : Option (List ServiceDefinition) := none
  introspectionHeaders : Option (List (String × String)) := none
  localServiceList : Option (List ServiceDefinition) := none
  didResolveQueryPlan : Bool := false
  didFailComposition : Bool := false
  didUpdateSchema : Bool := false
  didUpdateServiceList : Bool := false
  getServiceList : Option (List ServiceDefinition) := none

/-- Model of `isLocalConfig`: the source tests presence of `localServiceList`. -/
def isLocalConfig (config : GatewayConfig) : Bool :=
  config.localServiceList.isSome

/-- The external collaborators of the orchestration file, kept abstract:
theorems quantify over every `Env`. -/
structure Env where
  nodeEnv : String
  composeAndValidate :
    List ServiceDefinition → GraphQLSchema × List GraphQLError
  buildQueryPlan : OperationContext → QueryPlan
  executeQueryPlan :
    QueryPlan → List (String × GraphQLDataSource) → RequestContext →
      OperationContext → ExecutionResponseCore
  serializeQueryPlan : QueryPlan → String
  getServiceDefinitionsFromRemoteEndpoint :
    List ServiceDefinition → List ServiceDefinition

/-- The mutable instance fields of `ApolloGateway`, plus the log and the
record of fired observability callbacks. `planCache` is `none` before
`initializeQueryPlanStore` has run. -/
structure GatewayState where
  schema : Option GraphQLSchema
  isReady : Bool
  serviceMap : List (String × GraphQLDataSource)
  planCache : Option (List (String × QueryPlan))
  log : List LogEntry
  firedCallbacks : List CallbackEvent
deriving DecidableEq, Repr

/-- The exceptions the orchestration file throws. -/
inductive GatewayError where
  | schemaValidationError (errors : List GraphQLError)
  | missingServiceUrl (serviceName : String)
  | missingServiceList
deriving DecidableEq, Repr

/-- JavaScript object property assignment on a string-keyed map:
an existing key is overwritten in place, a new key is appended. -/
def mapInsert {α : Type} (m : List (String × α)) (k : String) (v : α) :
    List (String × α) :=
  if m.any (fun p => p.1 = k) then
    m.map (fun p => if p.1 = k then (k, v) else p)
  else m ++ [(k, v)]

/-- Key lookup on a string-keyed association map. -/
def mapLookup {α : Type} (m : List (String × α)) (k : String) : Option α :=
  match m.find? (fun p => p.1 = k) with
  | some p => some p.2
  | none => none

/-- Key membership on a string-keyed association map. -/
def mapHasKey {α : Type} (m : List (String × α)) (k : String) : Bool :=
  m.any (fun p => p.1 = k)

/-- The empty state a freshly constructed gateway starts from. -/
def initialState : GatewayState :=
  { schema := none, isReady := false, serviceMap := [],
    planCache := none, log := [], firedCallbacks := [] }

/-- The state carried by an aborted (throwing) or completed operation. -/
def exceptStateS :
    Except (GatewayError × GatewayState) GatewayState → GatewayState
  | .ok s => s
  | .error e => e.2

/-- The state carried by an operation that also returns a value. -/
def exceptState {α : Type} :
    Except (GatewayError × GatewayState) (α × GatewayState) → GatewayState
  | .ok p => p.2
  | .error e => e.2

/-- The handle built for one service definition: the user-supplied
`buildService` when configured, else a `RemoteGraphQLDataSource` on the
service url. -/
def buildHandle (config : GatewayConfig) (serviceDef : ServiceDefinition) :
    GraphQLDataSource :=
  match config.buildService with
  | some f => f serviceDef
  | none => GraphQLDataSource.remote serviceDef.url

/-- Model of `ApolloGateway.createServices`: iterates the service list, throwing
when a definition lacks a url under a non-local config, and otherwise
assigning `this.serviceMap[name]` in place. A throw mid-loop leaves the
assignments already made, so the error carries the partial map. -/
def createServices (config : GatewayConfig)
    (serviceMap : List (String × GraphQLDataSource)) :
    List ServiceDefinition →
      Except (GatewayError × List (String × GraphQLDataSource))
        (List (String × GraphQLDataSource))
  | [] => .ok serviceMap
  | serviceDef :: rest =>
    if serviceDef.url.isNone && !(isLocalConfig config) then
      .error (GatewayError.missingServiceUrl serviceDef.name, serviceMap)
    else
      createServices config
        (mapInsert serviceMap serviceDef.name (buildHandle config serviceDef))
        rest

/-- Model of `wrapSchemaWithAliasResolver`, per type: an object type that is not
an introspection type has every field resolver set to
`defaultFieldResolverWithAliasSupport`; any other type is untouched. -/
def wrapTypeWithAliasResolver (t : TypeDef) : TypeDef :=
  if t.isObject && !t.isIntrospection then
    { t with fields := t.fields.map (fun f =>
        { f with resolve := some Resolver.defaultFieldResolverWithAliasSupport }) }
  else t

/-- Model of `wrapSchemaWithAliasResolver`: walks the type map and installs the
alias-aware resolver on every field of every non-introspection object
type. -/
def wrapSchemaWithAliasResolver (schema : GraphQLSchema) : GraphQLSchema :=
  { typeMap := schema.typeMap.map wrapTypeWithAliasResolver }

/-- Model of `ApolloGateway.createSchema`: composes the service list; on errors,
fires `experimental_didFailComposition` (when configured) and throws a
`GraphQLSchemaValidationError`; on success, assigns the alias-wrapped
schema, fires `experimental_didUpdateSchema` (when configured), rebuilds
the service map via `createServices`, and sets `isReady`. -/
def createSchema (env : Env) (config : GatewayConfig) (s : GatewayState)
    (services : List ServiceDefinition) :
    Except (GatewayError × GatewayState) GatewayState :=
  let previousSchema := s.schema
  let s0 : GatewayState :=
    { s with log := s.log ++ [LogEntry.debug "Composing schema from service list"] }
  let composed := env.composeAndValidate services
  if composed.2.length > 0 then
    let s1 : GatewayState :=
      if config.didFailComposition then
        { s0 with firedCallbacks := s0.firedCallbacks ++
            [CallbackEvent.didFailComposition composed.2 services] }
      else s0
    .error (GatewayError.schemaValidationError composed.2, s1)
  else
    let wrapped := wrapSchemaWithAliasResolver composed.1
    let s2 : GatewayState := { s0 with schema := some wrapped }
    let s3 : GatewayState :=
      if config.didUpdateSchema then
        { s2 with firedCallbacks := s2.firedCallbacks ++
            [CallbackEvent.didUpdateSchema previousSchema wrapped] }
      else s2
    match createServices config s3.serviceMap services with
    | .error e => .error (e.1, { s3 with serviceMap := e.2 })
    | .ok m =>
      .ok { s3 with serviceMap := m,
                    log := s3.log ++
                      [LogEntry.debug "Schema loaded and ready for execution"],
                    isReady := true }

/-- Model of `ApolloGateway.loadServiceDefinitions`: a local config returns its
list directly; otherwise a missing `serviceList` throws, and a present
one is resolved through the remote endpoint loader, after which
`createServices` runs on the remote definitions. -/
def loadServiceDefinitions (env : Env) (config : GatewayConfig)
    (s : GatewayState) :
    Except (GatewayError × GatewayState)
      (List ServiceDefinition × GatewayState) :=
  match config.localServiceList with
  | some defs => .ok (defs, s)
  | none =>
    match config.serviceList with
    | none => .error (GatewayError.missingServiceList, s)
    | some serviceList =>
      let remoteServices :=
        env.getServiceDefinitionsFromRemoteEndpoint serviceList
      match createServices config s.serviceMap remoteServices with
      | .error e => .error (e.1, { s with serviceMap := e.2 })
      | .ok m => .ok (remoteServices, { s with serviceMap := m })

/-- Model of `ApolloGateway.load`: when the gateway is not ready, resolves the
service list (via `experimental_getServiceList` when configured, else
`loadServiceDefinitions`) and runs `createSchema`; in every case returns
the current schema (the executor member of the returned pair is the
per-instance bound function, identical across calls, and is therefore
not part of the returned value here). -/
def load (env : Env) (config : GatewayConfig) (s : GatewayState) :
    Except (GatewayError × GatewayState)
      (Option GraphQLSchema × GatewayState) :=
  if !s.isReady then
    let s0 : GatewayState :=
      { s with log := s.log ++ [LogEntry.debug "Loading configuration for Gateway"] }
    let loaded :
        Except (GatewayError × GatewayState)
          (List ServiceDefinition × GatewayState) :=
      match config.getServiceList with
      | some services => .ok (services, s0)
      | none => loadServiceDefinitions env config s0
    match loaded with
    | .error e => .error e
    | .ok p =>
      let s2 : GatewayState :=
        { p.2 with log := p.2.log ++
            [LogEntry.debug "Configuration loaded for Gateway"] }
      match createSchema env config s2 p.1 with
      | .error e => .error e
      | .ok s3 => .ok (s3.schema, s3)
  else .ok (s.schema, s)

/-- The constructor resolves `__exposeQueryPlanExperimental` by spreading
the user config over the default `NODE_ENV !== production`: an explicit
config value takes precedence over the default. -/
def resolveConfig (env : Env) (config : GatewayConfig) : GatewayConfig :=
  let resolved := config.exposeQueryPlanExperimental.getD (env.nodeEnv != "production")
  { config with exposeQueryPlanExperimental := some resolved }

/-- Model of `new ApolloGateway(config)`: resolves the config, runs `createSchema`
on the local service list when the config is local, then initializes the
query plan store (a fresh empty cache). A composition throw aborts the
constructor before the store is initialized. -/
def constructGateway (env : Env) (config : GatewayConfig) :
    Except (GatewayError × GatewayState)
      (GatewayConfig × GatewayState) :=
  let resolved := resolveConfig env config
  let afterLocal :
      Except (GatewayError × GatewayState) GatewayState :=
    match config.localServiceList with
    | some defs => createSchema env resolved initialState defs
    | none => .ok initialState
  match afterLocal with
  | .error e => .error e
  | .ok s1 => .ok (resolved, { s1 with planCache := some [] })

/-- Header lookup on the inbound http headers. Fetch headers are
case-insensitive; the model stores and queries names in the exact
spelling the gateway uses, so an exact comparison is adequate. -/
def headersGet (headers : List (String × String)) (name : String) :
    Option String :=
  match headers.find? (fun p => p.1 = name) with
  | some p => some p.2
  | none => none

/-- Model of `shouldShowQueryPlan` in the executor: the resolved
`__exposeQueryPlanExperimental` config flag, and a truthy (present and
non-empty) `Apollo-Query-Plan-Experimental` header on the inbound
request. -/
def shouldShowQueryPlan (config : GatewayConfig)
    (request : GraphQLRequest) : Bool :=
  config.exposeQueryPlanExperimental.getD false &&
    (match request.http with
     | some http =>
       (match headersGet http.headers "Apollo-Query-Plan-Experimental" with
        | some v => v != ""
        | none => false)
     | none => false)

/-- The plan the executor hands to `executeQueryPlan`: the cached plan
under the request query hash when the store holds one, else a plan
freshly built by `buildQueryPlan` on the operation context. -/
def chosenQueryPlan (env : Env) (s : GatewayState)
    (operationContext : OperationContext) (queryHash : String) : QueryPlan :=
  match s.planCache.bind (fun c => mapLookup c queryHash) with
  | some plan => plan
  | none => env.buildQueryPlan operationContext

/-- The executor errors: the unchecked non-null dereference of
`this.schema` is the only failure modelled. -/
inductive ExecError where
  | schemaUndefined
deriving DecidableEq, Repr

/-- Model of `ApolloGateway.executor`: dereferences `this.schema` (a TypeError
when undefined), builds the operation context, consults the plan store
under the request query hash, builds a fresh plan on a miss and issues a
fire-and-forget store write — whose success is given by the
`cacheWriteOk` oracle and whose failure is only logged as a warning —
executes the plan against the current service map, fires
`experimental_didResolveQueryPlan` (when configured), and attaches the
serialized plan as `extensions.__queryPlanExperimental` exactly when
`shouldShowQueryPlan` holds (also logging the serialization). -/
def executor (env : Env) (config : GatewayConfig) (s : GatewayState)
    (rc : RequestContext) (cacheWriteOk : Bool) :
    Except ExecError (GraphQLExecutionResult × GatewayState) :=
  match s.schema with
  | none => .error ExecError.schemaUndefined
  | some schema =>
    let operationContext :=
      buildOperationContext schema rc.document rc.request.operationName
    let cachedPlan := s.planCache.bind (fun c => mapLookup c rc.queryHash)
    let queryPlan := chosenQueryPlan env s operationContext rc.queryHash
    let planCache2 : Option (List (String × QueryPlan)) :=
      match cachedPlan, s.planCache with
      | none, some c =>
        if cacheWriteOk then some (mapInsert c rc.queryHash queryPlan)
        else s.planCache
      | _, _ => s.planCache
    let warnLog : List LogEntry :=
      match cachedPlan, s.planCache with
      | none, some _ =>
        if cacheWriteOk then [] else [LogEntry.warn "Could not store queryPlan"]
      | _, _ => []
    let core := env.executeQueryPlan queryPlan s.serviceMap rc operationContext
    let exposePlan := shouldShowQueryPlan config rc.request
    let response : GraphQLExecutionResult :=
      { data := core.data, errors := core.errors,
        extensions :=
          if exposePlan then
            some [("__queryPlanExperimental", env.serializeQueryPlan queryPlan)]
          else none }
    let s2 : GatewayState :=
      { s with planCache := planCache2,
               log := s.log ++ warnLog ++
                 (if exposePlan then
                   [LogEntry.debug (env.serializeQueryPlan queryPlan)]
                  else []),
               firedCallbacks := s.firedCallbacks ++
                 (if config.didResolveQueryPlan then
                   [CallbackEvent.didResolveQueryPlan queryPlan]
                  else []) }
    .ok (response, s2)

/-- Recognizer for service-list-update callback invocations. -/
def isServiceListUpdateEvent : CallbackEvent → Bool
  | CallbackEvent.didUpdateServiceList _ _ => true
  | _ => false

/-- The readiness invariant: whenever `isReady` holds, a schema has been
assigned. -/
def gatewayInv (s : GatewayState) : Prop :=
  s.isReady = true → s.schema.isSome = true

/-! Concrete fixtures used by counterexamples and witnesses. -/

/-- A gateway config with every option left at its default. -/
def defaultConfig : GatewayConfig := {}

def schemaEmpty : GraphQLSchema := { typeMap := [] }

/-- A schema with one plain object type, used as the previously active
schema in staleness scenarios. -/
def schemaOld : GraphQLSchema :=
  { typeMap := [{ name := "Query", isObject := true, isIntrospection := false,
                  fields := [{ name := "me", resolve := none }] }] }

/-- A schema mixing a plain object type, an introspection type and a
non-object type, used to exercise the alias-resolver wrapping. -/
def schemaMixed : GraphQLSchema :=
  { typeMap :=
      [{ name := "Query", isObject := true, isIntrospection := false,
         fields := [{ name := "me", resolve := none },
                    { name := "products", resolve := some (Resolver.custom 1) }] },
       { name := "IntroSchema", isObject := true, isIntrospection := true,
         fields := [{ name := "types", resolve := some (Resolver.custom 2) }] },
       { name := "DateTime", isObject := false, isIntrospection := false,
         fields := [] }] }

def svcAccounts : ServiceDefinition :=
  { name := "accounts", url := some "http://localhost:4001", typeDefs := "type Query" }

def svcReviews : ServiceDefinition :=
  { name := "reviews", url := some "http://localhost:4002", typeDefs := "type Review" }

def planOld : QueryPlan := { planId := 7 }

/-- A concrete environment whose composition always succeeds with the
empty schema. -/
def envOkCompose : Env :=
  { nodeEnv := "production",
    composeAndValidate := fun _ => (schemaEmpty, []),
    buildQueryPlan := fun _ => { planId := 99 },
    executeQueryPlan := fun _ _ _ _ => { data := some "data", errors := [] },
    serializeQueryPlan := fun plan => Nat.repr plan.planId,
    getServiceDefinitionsFromRemoteEndpoint := fun l => l }

/-- An environment whose composition always fails with one error. -/
def envFailCompose : Env :=
  { envOkCompose with
    composeAndValidate := fun _ => (schemaEmpty, [{ message := "composition failed" }]) }

/-- An environment whose composition always succeeds with `schemaMixed`. -/
def envMixedCompose : Env :=
  { envOkCompose with composeAndValidate := fun _ => (schemaMixed, []) }

/-- A ready gateway with a warm plan cache entry under hash `qh`,
computed against `schemaOld`. -/
def stateWarm : GatewayState :=
  { schema := some schemaOld, isReady := true, serviceMap := [],
    planCache := some [("qh", planOld)], log := [], firedCallbacks := [] }

/-- A ready gateway with an empty plan cache. -/
def stateReady : GatewayState :=
  { schema := some schemaEmpty, isReady := true, serviceMap := [],
    planCache := some [], log := [], firedCallbacks := [] }

/-- A not-yet-ready gateway whose service map holds a handle for a
service that later service lists no longer mention. -/
def stateOldService : GatewayState :=
  { schema := none, isReady := false,
    serviceMap := [("old-service", GraphQLDataSource.custom 0)],
    planCache := none, log := [], firedCallbacks := [] }

/-- A plain request: no http envelope, hash `qh`. -/
def rcPlain : RequestContext :=
  { request := { operationName := none, variableValues := [], http := none },
    document := "query Q", queryHash := "qh" }

/-- A request whose headers carry `Apollo-Query-Plan-Experimental` with
an empty value: the header is present but not truthy. -/
def rcHeaderEmpty : RequestContext :=
  { request := { operationName := none, variableValues := [],
                 http := some { headers := [("Apollo-Query-Plan-Experimental", "")] } },
    document := "query Q", queryHash := "qh" }

/-- The http envelope carrying `Apollo-Query-Plan-Experimental: 1`. -/
def httpHeaderOn : RequestHTTP :=
  { headers := [("Apollo-Query-Plan-Experimental", "1")] }

/-- A request whose headers carry `Apollo-Query-Plan-Experimental: 1`. -/
def rcHeaderOn : RequestContext :=
  { request := { operationName := none, variableValues := [],
                 http := some httpHeaderOn },
    document := "query Q", queryHash := "qh" }

/-- A user config that explicitly enables the query-plan debug flag. -/
def cfgExposeOn : GatewayConfig := { exposeQueryPlanExperimental := some true }

/-- A config with the composition-failure observer configured. -/
def cfgFailObserver : GatewayConfig := { didFailComposition := true }

/-- The state after recomposing over the warm cache. -/
def c1NewState : GatewayState :=
  exceptStateS (createSchema envOkCompose defaultConfig stateWarm [svcAccounts])

/-- The state after composing a service list that no longer mentions
`old-service`. -/
def c6NewState : GatewayState :=
  exceptStateS (createSchema envOkCompose defaultConfig stateOldService [svcReviews])

/-- The state after composing the mixed schema from a fresh gateway. -/
def c8NewState : GatewayState :=
  exceptStateS (createSchema envMixedCompose defaultConfig initialState [svcAccounts])

/-- The extensions attached by a concrete executor run with the debug
flag explicitly enabled and the header present with an empty value. -/
def c4EmptyHeaderExtensions : Option (List (String × String)) :=
  match executor envOkCompose (resolveConfig envOkCompose cfgExposeOn) stateReady rcHeaderEmpty true with
  | .ok p => p.1.extensions
  | .error _ => some [("error", "error")]

/-- The extensions attached by a concrete executor run with the debug
flag explicitly enabled and the header present with a truthy value. -/
def c4OnHeaderExtensions : Option (List (String × String)) :=
  match executor envOkCompose (resolveConfig envOkCompose cfgExposeOn) stateReady rcHeaderOn true with
  | .ok p => p.1.extensions
  | .error _ => none

/-! Theorems. -/

/-- Characterization of a successful `createSchema` run: composition
reported no errors, the alias-wrapped composed schema was adopted,
`isReady` was set, the plan cache was left untouched, the schema-update
callback fired exactly when configured, and the service map is the
result of `createServices` on the previous map. -/
theorem createSchema_ok_spec (env : Env) (config : GatewayConfig)
    (s : GatewayState) (services : List ServiceDefinition) (s2 : GatewayState)
    (h : createSchema env config s services = .ok s2) :
    (env.composeAndValidate services).2 = [] ∧
    s2.schema =
      some (wrapSchemaWithAliasResolver (env.composeAndValidate services).1) ∧
    s2.isReady = true ∧
    s2.planCache = s.planCache ∧
    s2.firedCallbacks = s.firedCallbacks ++
      (if config.didUpdateSchema = true then
        [CallbackEvent.didUpdateSchema s.schema
          (wrapSchemaWithAliasResolver (env.composeAndValidate services).1)]
       else []) ∧
    createServices config s.serviceMap services = .ok s2.serviceMap := by
  simp only [createSchema] at h
  split at h
  · exact Except.noConfusion h
  · rename_i hlen
    have hnil : (env.composeAndValidate services).2 = [] :=
      List.length_eq_zero.mp (Nat.eq_zero_of_not_pos hlen)
    by_cases hu : config.didUpdateSchema = true
    · simp only [hu, if_true] at h
      split at h
      · exact Except.noConfusion h
      · rename_i m hm
        cases h
        refine ⟨hnil, rfl, rfl, rfl, by simp [hu], by simpa using hm⟩
    · simp only [hu, if_false] at h
      split at h
      · exact Except.noConfusion h
      · rename_i m hm
        cases h
        refine ⟨hnil, rfl, rfl, rfl, by simp [hu], by simpa using hm⟩

/-- Claim C9: once a load has succeeded (`isReady` is true), a
subsequent `load` performs no service-list loading and no recomposition,
leaves the whole gateway state unchanged, and returns the current
schema (the executor member of the returned pair is the same
per-instance bound function on every call). -/
theorem C9_load_idempotent_after_success (env : Env) (config : GatewayConfig)
    (s : GatewayState) (h : s.isReady = true) :
    load env config s = .ok (s.schema, s) := by
  simp [load, h]

/-- Witness for C9 at a concrete ready gateway. -/
theorem C9_witness :
    load envOkCompose defaultConfig stateReady = .ok (stateReady.schema, stateReady) :=
  C9_load_idempotent_after_success envOkCompose defaultConfig stateReady rfl

/-- Claim C1, counterexample: a successful recomposition over a warm
plan cache adopts a new schema yet leaves the cache yielding the plan
cached against the old schema — `createSchema` performs no invalidation
and the cache key involves only the query hash. -/
theorem C1_counterexample :
    (createSchema envOkCompose defaultConfig stateWarm [svcAccounts]).toOption =
      some c1NewState ∧
    c1NewState.isReady = true ∧
    c1NewState.schema ≠ stateWarm.schema ∧
    c1NewState.planCache.bind (fun c => mapLookup c "qh") = some planOld := by
  refine ⟨rfl, rfl, by decide, rfl⟩

/-- Claim C1 as amended: a successful `createSchema` leaves the plan
cache exactly as it was — no invalidation happens on schema
replacement, and a plan stored under a query hash before the
recomposition is still yielded for that hash afterwards. -/
theorem C1_cache_not_invalidated (env : Env) (config : GatewayConfig)
    (s : GatewayState) (services : List ServiceDefinition) (s2 : GatewayState)
    (h : createSchema env config s services = .ok s2) :
    s2.planCache = s.planCache :=
  (createSchema_ok_spec env config s services s2 h).2.2.2.1

/-- Witness for the amended C1 at a concrete recomposition. -/
theorem C1_witness : c1NewState.planCache = stateWarm.planCache :=
  C1_cache_not_invalidated envOkCompose defaultConfig stateWarm [svcAccounts]
    c1NewState rfl

/-- Claim C2: when composition yields errors, `createSchema` fires the
composition-failure observer (when configured) with the errors and the
service list, throws `GraphQLSchemaValidationError`, and leaves schema,
service map, readiness and plan cache at their prior values. -/
theorem C2_composition_failure_fail_open (env : Env) (config : GatewayConfig)
    (s : GatewayState) (services : List ServiceDefinition)
    (h : (env.composeAndValidate services).2 ≠ []) :
    ∃ s2,
      createSchema env config s services =
        .error (GatewayError.schemaValidationError
          (env.composeAndValidate services).2, s2) ∧
      s2.schema = s.schema ∧ s2.serviceMap = s.serviceMap ∧
      s2.isReady = s.isReady ∧ s2.planCache = s.planCache ∧
      s2.firedCallbacks = s.firedCallbacks ++
        (if config.didFailComposition = true then
          [CallbackEvent.didFailComposition
            (env.composeAndValidate services).2 services]
         else []) := by
  have hlen : 0 < (env.composeAndValidate services).2.length :=
    List.length_pos.mpr h
  by_cases hf : config.didFailComposition = true
  · exact ⟨{ s with
        log := s.log ++ [LogEntry.debug "Composing schema from service list"],
        firedCallbacks := s.firedCallbacks ++
          [CallbackEvent.didFailComposition
            (env.composeAndValidate services).2 services] },
      by simp [createSchema, hlen, hf], rfl, rfl, rfl, rfl, by simp [hf]⟩
  · exact ⟨{ s with
        log := s.log ++ [LogEntry.debug "Composing schema from service list"] },
      by simp [createSchema, hlen, hf], rfl, rfl, rfl, rfl, by simp [hf]⟩

/-- Witness for C2 at a concrete failing composition with the observer
configured: the prior readiness is preserved. -/
theorem C2_witness :
    (exceptStateS (createSchema envFailCompose cfgFailObserver stateWarm
      [svcAccounts])).isReady = stateWarm.isReady := by
  obtain ⟨s2, he, -, -, hr, -, -⟩ :=
    C2_composition_failure_fail_open envFailCompose cfgFailObserver stateWarm
      [svcAccounts] (by decide)
  rw [he]
  exact hr

/-- Claim C3: the plan-cache write is fire-and-forget. The caller-visible
result of the executor is identical whether the store write succeeds or
fails, and on the failing run the only difference in the resulting state
(beyond the cache content itself) is one warning log entry. -/
theorem C3_cache_write_fire_and_forget (env : Env) (config : GatewayConfig)
    (s : GatewayState) (rc : RequestContext) :
    Except.map Prod.fst (executor env config s rc true) =
      Except.map Prod.fst (executor env config s rc false) ∧
    (∀ response sFail, executor env config s rc false = .ok (response, sFail) →
      ∃ sOk, executor env config s rc true = .ok (response, sOk) ∧
        sFail.schema = sOk.schema ∧
        sFail.serviceMap = sOk.serviceMap ∧
        sFail.firedCallbacks = sOk.firedCallbacks ∧
        (sFail.log = sOk.log ∨
          ∃ pre post,
            sFail.log = pre ++ [LogEntry.warn "Could not store queryPlan"] ++ post ∧
            sOk.log = pre ++ post)) := by
  have hmap : Except.map Prod.fst (executor env config s rc true) =
      Except.map Prod.fst (executor env config s rc false) := by
    cases hs : s.schema <;> simp [executor, hs, Except.map]
  refine ⟨hmap, ?_⟩
  intro response sFail h
  cases hs : s.schema with
  | none => simp [executor, hs] at h
  | some schema =>
    cases hpc : s.planCache with
    | none =>
      have hsame : executor env config s rc true = executor env config s rc false := by
        simp [executor, hs, hpc, Option.bind]
      exact ⟨sFail, hsame.trans h, rfl, rfl, rfl, Or.inl rfl⟩
    | some c =>
      cases hlk : mapLookup c rc.queryHash with
      | some plan =>
        have hsame : executor env config s rc true = executor env config s rc false := by
          simp [executor, hs, hpc, hlk, Option.bind]
        exact ⟨sFail, hsame.trans h, rfl, rfl, rfl, Or.inl rfl⟩
      | none =>
        simp only [executor, hs, hpc, hlk, Option.some_bind] at h
        rw [Except.ok.injEq, Prod.mk.injEq] at h
        obtain ⟨hresp, hstate⟩ := h
        subst hresp
        subst hstate
        refine ⟨{ s with
            planCache := some (mapInsert c rc.queryHash
              (chosenQueryPlan env s
                (buildOperationContext schema rc.document rc.request.operationName)
                rc.queryHash)),
            log := s.log ++
              (if shouldShowQueryPlan config rc.request = true then
                [LogEntry.debug (env.serializeQueryPlan
                  (chosenQueryPlan env s
                    (buildOperationContext schema rc.document rc.request.operationName)
                    rc.queryHash))]
               else []),
            firedCallbacks := s.firedCallbacks ++
              (if config.didResolveQueryPlan = true then
                [CallbackEvent.didResolveQueryPlan
                  (chosenQueryPlan env s
                    (buildOperationContext schema rc.document rc.request.operationName)
                    rc.queryHash)]
               else []) }, ?_, ?_, ?_, ?_, ?_⟩
        · simp [executor, hs, hpc, hlk, Option.bind]
        · simp [hs]
        · rfl
        · rfl
        · right
          refine ⟨s.log,
            (if shouldShowQueryPlan config rc.request = true then
              [LogEntry.debug (env.serializeQueryPlan
                (chosenQueryPlan env s
                  (buildOperationContext schema rc.document rc.request.operationName)
                  rc.queryHash))]
             else []), ?_, ?_⟩
          · simp
          · rfl

/-- Witness for C3 at a concrete cache-missing request: the
caller-visible result is the same whether the store write succeeds or
fails. -/
theorem C3_witness :
    Except.map Prod.fst (executor envOkCompose defaultConfig stateReady rcPlain true) =
      Except.map Prod.fst (executor envOkCompose defaultConfig stateReady rcPlain false) :=
  (C3_cache_write_fire_and_forget envOkCompose defaultConfig stateReady rcPlain).1

/-- The resolved debug flag read by the executor equals the explicit
config value when provided, else the `NODE_ENV` default. -/
theorem resolveConfig_getD (env : Env) (config : GatewayConfig) :
    (resolveConfig env config).exposeQueryPlanExperimental.getD false =
      config.exposeQueryPlanExperimental.getD (env.nodeEnv != "production") := rfl

/-- Characterization of `shouldShowQueryPlan`: the resolved flag holds
and the header is present with a non-empty value. -/
theorem shouldShowQueryPlan_eq_true_iff (config : GatewayConfig)
    (request : GraphQLRequest) :
    shouldShowQueryPlan config request = true ↔
      (config.exposeQueryPlanExperimental.getD false = true ∧
        ∃ http v, request.http = some http ∧
          headersGet http.headers "Apollo-Query-Plan-Experimental" = some v ∧
          v ≠ "") := by
  unfold shouldShowQueryPlan
  cases hh : request.http with
  | none => simp
  | some http =>
    cases hg : headersGet http.headers "Apollo-Query-Plan-Experimental" with
    | none => simp [hg]
    | some v => simp [hg, bne_iff_ne]

/-- Claim C4, counterexample: with the debug flag explicitly enabled and
the inbound headers containing `Apollo-Query-Plan-Experimental` with an
empty value, the header is present yet the gateway attaches no query
plan, because the source requires a truthy header value. -/
theorem C4_counterexample :
    cfgExposeOn.exposeQueryPlanExperimental = some true ∧
    rcHeaderEmpty.request.http =
      some { headers := [("Apollo-Query-Plan-Experimental", "")] } ∧
    headersGet [("Apollo-Query-Plan-Experimental", "")]
      "Apollo-Query-Plan-Experimental" = some "" ∧
    c4EmptyHeaderExtensions = none := by
  refine ⟨rfl, rfl, by decide, by decide⟩

/-- Claim C4 as amended: the response carries
`extensions.__queryPlanExperimental` if and only if the resolved
`__exposeQueryPlanExperimental` flag is enabled (the explicit config
value taking precedence over the `NODE_ENV` default) and the inbound
request has an http part whose headers carry
`Apollo-Query-Plan-Experimental` with a non-empty value. -/
theorem C4_expose_query_plan_condition (env : Env) (config : GatewayConfig)
    (s : GatewayState) (rc : RequestContext) (cacheWriteOk : Bool)
    (response : GraphQLExecutionResult) (s2 : GatewayState)
    (h : executor env (resolveConfig env config) s rc cacheWriteOk =
      .ok (response, s2)) :
    (∃ serialized,
        response.extensions = some [("__queryPlanExperimental", serialized)]) ↔
      (config.exposeQueryPlanExperimental.getD (env.nodeEnv != "production") = true ∧
        ∃ http v, rc.request.http = some http ∧
          headersGet http.headers "Apollo-Query-Plan-Experimental" = some v ∧
          v ≠ "") := by
  cases hs : s.schema with
  | none => simp [executor, hs] at h
  | some schema =>
    simp only [executor, hs] at h
    rw [Except.ok.injEq, Prod.mk.injEq] at h
    obtain ⟨hresp, -⟩ := h
    subst hresp
    rw [← resolveConfig_getD env config,
        ← shouldShowQueryPlan_eq_true_iff (resolveConfig env config) rc.request]
    by_cases hb : shouldShowQueryPlan (resolveConfig env config) rc.request = true
    · simp [hb]
    · rw [Bool.not_eq_true] at hb
      simp [hb]

/-- Witness for the amended C4 at a concrete request carrying the header
with the value 1 and the flag explicitly enabled: the plan serialization
is attached. -/
theorem C4_witness :
    ∃ serialized,
      c4OnHeaderExtensions = some [("__queryPlanExperimental", serialized)] := by
  cases hrun : executor envOkCompose (resolveConfig envOkCompose cfgExposeOn)
      stateReady rcHeaderOn true with
  | error e => simp [executor, stateReady] at hrun
  | ok p =>
    have hiff := C4_expose_query_plan_condition envOkCompose cfgExposeOn
      stateReady rcHeaderOn true p.1 p.2 (by rw [hrun])
    obtain ⟨serialized, hser⟩ :=
      hiff.mpr ⟨by decide, httpHeaderOn, "1", rfl, by decide, by decide⟩
    exact ⟨serialized, by simp [c4OnHeaderExtensions, hrun, hser]⟩

/-- Claim C5: a cache hit supplies the cached plan, a cache miss (or an
unconfigured store) falls back to `buildQueryPlan` on the operation
context, and the response is computed by executing exactly that
cached-or-fresh plan. -/
theorem C5_cache_miss_replans (env : Env) (config : GatewayConfig)
    (s : GatewayState) (rc : RequestContext) (cacheWriteOk : Bool)
    (schema : GraphQLSchema) (h : s.schema = some schema) :
    (∀ plan, s.planCache.bind (fun c => mapLookup c rc.queryHash) = some plan →
      chosenQueryPlan env s
        (buildOperationContext schema rc.document rc.request.operationName)
        rc.queryHash = plan) ∧
    (s.planCache.bind (fun c => mapLookup c rc.queryHash) = none →
      chosenQueryPlan env s
        (buildOperationContext schema rc.document rc.request.operationName)
        rc.queryHash =
        env.buildQueryPlan
          (buildOperationContext schema rc.document rc.request.operationName)) ∧
    (∀ response s2, executor env config s rc cacheWriteOk = .ok (response, s2) →
      response.data = (env.executeQueryPlan
          (chosenQueryPlan env s
            (buildOperationContext schema rc.document rc.request.operationName)
            rc.queryHash)
          s.serviceMap rc
          (buildOperationContext schema rc.document rc.request.operationName)).data ∧
      response.errors = (env.executeQueryPlan
          (chosenQueryPlan env s
            (buildOperationContext schema rc.document rc.request.operationName)
            rc.queryHash)
          s.serviceMap rc
          (buildOperationContext schema rc.document rc.request.operationName)).errors) := by
  refine ⟨?_, ?_, ?_⟩
  · intro plan hp
    simp [chosenQueryPlan, hp]
  · intro hp
    simp [chosenQueryPlan, hp]
  · intro response s2 he
    simp only [executor, h] at he
    rw [Except.ok.injEq, Prod.mk.injEq] at he
    obtain ⟨hresp, -⟩ := he
    subst hresp
    exact ⟨rfl, rfl⟩

/-- Witness for C5 at a concrete cache miss: the chosen plan is the
freshly built one. -/
theorem C5_witness :
    chosenQueryPlan envOkCompose stateReady
        (buildOperationContext schemaEmpty rcPlain.document
          rcPlain.request.operationName) rcPlain.queryHash =
      envOkCompose.buildQueryPlan
        (buildOperationContext schemaEmpty rcPlain.document
          rcPlain.request.operationName) :=
  (C5_cache_miss_replans envOkCompose defaultConfig stateReady rcPlain true
    schemaEmpty rfl).2.1 rfl

/-- Key membership after a JavaScript-style insert: the inserted key,
or any previously present key. -/
theorem mapHasKey_mapInsert_iff {α : Type} (m : List (String × α))
    (k j : String) (v : α) :
    mapHasKey (mapInsert m k v) j = true ↔ (j = k ∨ mapHasKey m j = true) := by
  unfold mapInsert mapHasKey
  by_cases hk : m.any (fun p => p.1 = k) = true
  · rw [if_pos hk]
    simp only [List.any_map, List.any_eq_true, Function.comp_apply,
      decide_eq_true_eq] at hk ⊢
    constructor
    · rintro ⟨p, hp, hpj⟩
      by_cases hpk : p.1 = k
      · rw [if_pos hpk] at hpj
        exact Or.inl hpj.symm
      · rw [if_neg hpk] at hpj
        exact Or.inr ⟨p, hp, hpj⟩
    · rintro (rfl | ⟨p, hp, hpj⟩)
      · obtain ⟨p, hp, hpk⟩ := hk
        exact ⟨p, hp, by rw [if_pos hpk]⟩
      · refine ⟨p, hp, ?_⟩
        by_cases hpk : p.1 = k
        · rw [if_pos hpk]
          simpa [← hpk] using hpj
        · rw [if_neg hpk]
          exact hpj
  · rw [if_neg hk]
    simp only [List.any_append, Bool.or_eq_true, List.any_cons, List.any_nil,
      Bool.or_false, decide_eq_true_eq]
    constructor
    · rintro (hm | hkj)
      · exact Or.inr hm
      · exact Or.inl hkj.symm
    · rintro (rfl | hm)
      · exact Or.inr rfl
      · exact Or.inl hm

/-- A successful `createServices` run keys every service of its list and
preserves every key already present in the map. -/
theorem createServices_ok_keys (config : GatewayConfig) :
    ∀ (services : List ServiceDefinition)
      (m m2 : List (String × GraphQLDataSource)),
      createServices config m services = .ok m2 →
      ((∀ d ∈ services, mapHasKey m2 d.name = true) ∧
       (∀ j, mapHasKey m j = true → mapHasKey m2 j = true)) := by
  intro services
  induction services with
  | nil =>
    intro m m2 h
    simp only [createServices] at h
    rw [Except.ok.injEq] at h
    subst h
    exact ⟨by simp, fun j hj => hj⟩
  | cons d rest ih =>
    intro m m2 h
    simp only [createServices] at h
    split at h
    · exact Except.noConfusion h
    · obtain ⟨hrest, hpres⟩ := ih _ _ h
      refine ⟨?_, ?_⟩
      · intro e he
        rcases List.mem_cons.mp he with rfl | he2
        · exact hpres _ ((mapHasKey_mapInsert_iff m e.name e.name
            (buildHandle config e)).mpr (Or.inl rfl))
        · exact hrest e he2
      · intro j hj
        exact hpres j ((mapHasKey_mapInsert_iff m d.name j
          (buildHandle config d)).mpr (Or.inr hj))

/-- Claim C6, counterexample: a successful composition over a service
map holding `old-service`, with a service list that no longer mentions
it, leaves the stale `old-service` entry in place — the map is updated
in place, not rebuilt as a fresh snapshot restricted to the new list. -/
theorem C6_counterexample :
    (createSchema envOkCompose defaultConfig stateOldService [svcReviews]).toOption =
      some c6NewState ∧
    mapHasKey c6NewState.serviceMap "old-service" = true ∧
    svcReviews.name ≠ "old-service" := by
  refine ⟨rfl, by decide, by decide⟩

/-- Claim C6 as amended: after every successful composition the service
map holds a handle for every service of the new list (inserted or
overwritten in place), and every entry already present — including
entries for services absent from the new list — persists. -/
theorem C6_service_map_updated_in_place (env : Env) (config : GatewayConfig)
    (s : GatewayState) (services : List ServiceDefinition) (s2 : GatewayState)
    (h : createSchema env config s services = .ok s2) :
    (∀ d ∈ services, mapHasKey s2.serviceMap d.name = true) ∧
    (∀ j, mapHasKey s.serviceMap j = true → mapHasKey s2.serviceMap j = true) := by
  have hs := createSchema_ok_spec env config s services s2 h
  exact createServices_ok_keys config services s.serviceMap s2.serviceMap
    hs.2.2.2.2.2

/-- Witness for the amended C6: the newly listed service is keyed after
the composition. -/
theorem C6_witness : mapHasKey c6NewState.serviceMap svcReviews.name = true :=
  (C6_service_map_updated_in_place envOkCompose defaultConfig stateOldService
    [svcReviews] c6NewState rfl).1 svcReviews (by simp)

/-- No path through `createSchema` fires a service-list-update event:
only composition-failure and schema-update events are ever appended. -/
theorem createSchema_service_list_events (env : Env) (config : GatewayConfig)
    (s : GatewayState) (services : List ServiceDefinition) :
    ((exceptStateS (createSchema env config s services)).firedCallbacks).filter
        isServiceListUpdateEvent =
      s.firedCallbacks.filter isServiceListUpdateEvent := by
  simp only [createSchema]
  split
  · split <;>
      simp [exceptStateS, List.filter_append, isServiceListUpdateEvent]
  · split <;> split <;>
      simp [exceptStateS, List.filter_append, isServiceListUpdateEvent]

/-- Lemma: `loadServiceDefinitions` never fires a callback at all. -/
theorem loadServiceDefinitions_fired (env : Env) (config : GatewayConfig)
    (s : GatewayState) :
    (exceptState (loadServiceDefinitions env config s)).firedCallbacks =
      s.firedCallbacks := by
  simp only [loadServiceDefinitions]
  split
  · rfl
  · split
    · rfl
    · split <;> rfl

/-- Claim C7: the `experimental_didUpdateServiceList` callback is never
invoked — neither a `load` (over any state) nor the constructor ever
fires a service-list-update event, although the source stores the
callback and documents it as observing service-list updates. -/
theorem C7_service_list_callback_never_fired (env : Env)
    (config : GatewayConfig) (s : GatewayState) :
    ((exceptState (load env config s)).firedCallbacks).filter
        isServiceListUpdateEvent =
      s.firedCallbacks.filter isServiceListUpdateEvent ∧
    ((exceptState (constructGateway env config)).firedCallbacks).filter
        isServiceListUpdateEvent = [] := by
  constructor
  · simp only [load]
    split
    · split
      · rename_i e heq
        split at heq
        · exact Except.noConfusion heq
        · have hl := loadServiceDefinitions_fired env config
            { s with log := s.log ++ [LogEntry.debug "Loading configuration for Gateway"] }
          rw [heq] at hl
          simpa [exceptState] using
            congrArg (fun l => l.filter isServiceListUpdateEvent) hl
      · rename_i p heq
        have hp2 : p.2.firedCallbacks = s.firedCallbacks := by
          split at heq
          · rw [Except.ok.injEq] at heq
            subst heq
            rfl
          · have hl := loadServiceDefinitions_fired env config
              { s with log := s.log ++ [LogEntry.debug "Loading configuration for Gateway"] }
            rw [heq] at hl
            simpa [exceptState] using hl
        split
        · rename_i e2 hcs
          have hA := createSchema_service_list_events env config
            { p.2 with log := p.2.log ++ [LogEntry.debug "Configuration loaded for Gateway"] }
            p.1
          rw [hcs] at hA
          simpa [exceptState, exceptStateS, hp2] using hA
        · rename_i s3 hcs
          have hA := createSchema_service_list_events env config
            { p.2 with log := p.2.log ++ [LogEntry.debug "Configuration loaded for Gateway"] }
            p.1
          rw [hcs] at hA
          simpa [exceptState, exceptStateS, hp2] using hA
    · simp [exceptState]
  · simp only [constructGateway]
    split
    · rename_i e heq
      split at heq
      · rename_i defs hlocal
        have hA := createSchema_service_list_events env (resolveConfig env config)
          initialState defs
        rw [heq] at hA
        simpa [exceptState, exceptStateS, initialState] using hA
      · exact Except.noConfusion heq
    · rename_i s1 heq
      split at heq
      · rename_i defs hlocal
        have hA := createSchema_service_list_events env (resolveConfig env config)
          initialState defs
        rw [heq] at hA
        simpa [exceptState, exceptStateS, initialState] using hA
      · rw [Except.ok.injEq] at heq
        subst heq
        simp [exceptState, initialState]

/-- Claim C8: every successful composition adopts the alias-wrapped
schema, in which every field of every non-introspection object type
resolves via `defaultFieldResolverWithAliasSupport` and every other
type (introspection or non-object) is carried over unmodified. -/
theorem C8_alias_resolver_wrapping (env : Env) (config : GatewayConfig)
    (s : GatewayState) (services : List ServiceDefinition) (s2 : GatewayState)
    (h : createSchema env config s services = .ok s2) :
    ∃ w, s2.schema = some w ∧
      w = wrapSchemaWithAliasResolver (env.composeAndValidate services).1 ∧
      (∀ t ∈ w.typeMap, t.isObject = true → t.isIntrospection = false →
        ∀ f ∈ t.fields,
          f.resolve = some Resolver.defaultFieldResolverWithAliasSupport) ∧
      (∀ t ∈ (env.composeAndValidate services).1.typeMap,
        (t.isObject = false ∨ t.isIntrospection = true) → t ∈ w.typeMap) := by
  obtain ⟨-, hschema, -, -, -, -⟩ :=
    createSchema_ok_spec env config s services s2 h
  refine ⟨wrapSchemaWithAliasResolver (env.composeAndValidate services).1,
    hschema, rfl, ?_, ?_⟩
  · intro t ht hobj hintro f hf
    simp only [wrapSchemaWithAliasResolver] at ht
    obtain ⟨t0, ht0, rfl⟩ := List.mem_map.mp ht
    by_cases hcond : (t0.isObject && !t0.isIntrospection) = true
    · simp only [wrapTypeWithAliasResolver] at hf
      rw [if_pos hcond] at hf
      obtain ⟨f0, hf0, rfl⟩ := List.mem_map.mp hf
      rfl
    · simp only [wrapTypeWithAliasResolver] at hf hobj hintro
      rw [if_neg hcond] at hf hobj hintro
      exact absurd (by rw [hobj, hintro]; decide) hcond
  · intro t ht hne
    refine List.mem_map.mpr ⟨t, ht, ?_⟩
    simp only [wrapTypeWithAliasResolver]
    rcases hne with h1 | h2
    · rw [if_neg (by simp [h1])]
    · rw [if_neg (by simp [h2])]

/-- Witness for C8 at a concrete composition producing the mixed
schema. -/
theorem C8_witness :
    c8NewState.schema = some (wrapSchemaWithAliasResolver schemaMixed) := by
  obtain ⟨w, hw, hweq, -, -⟩ :=
    C8_alias_resolver_wrapping envMixedCompose defaultConfig initialState
      [svcAccounts] c8NewState rfl
  rw [hw, hweq]
  rfl

/-- Lemma: `createSchema` preserves the readiness invariant: every outcome
either keeps the prior schema and readiness, or assigns a schema
(possibly also setting readiness). -/
theorem createSchema_inv (env : Env) (config : GatewayConfig)
    (s : GatewayState) (services : List ServiceDefinition) (h : gatewayInv s) :
    gatewayInv (exceptStateS (createSchema env config s services)) := by
  simp only [createSchema]
  split
  · split <;> (intro hready; exact h hready)
  · split <;> (intro _; split <;> rfl)

/-- Lemma: `loadServiceDefinitions` touches neither the schema nor readiness. -/
theorem loadServiceDefinitions_schema_ready (env : Env)
    (config : GatewayConfig) (s : GatewayState) :
    (exceptState (loadServiceDefinitions env config s)).schema = s.schema ∧
    (exceptState (loadServiceDefinitions env config s)).isReady = s.isReady := by
  simp only [loadServiceDefinitions]
  split
  · exact ⟨rfl, rfl⟩
  · split
    · exact ⟨rfl, rfl⟩
    · split <;> exact ⟨rfl, rfl⟩

/-- Claim C10: the readiness invariant (isReady implies a schema is
assigned) holds initially and is preserved by `createSchema`, `load`
and the constructor; consequently the executor of a ready gateway never
fails its unchecked schema dereference. -/
theorem C10_ready_implies_schema (env : Env) (config : GatewayConfig)
    (s : GatewayState) (services : List ServiceDefinition)
    (rc : RequestContext) (cacheWriteOk : Bool) :
    gatewayInv initialState ∧
    (gatewayInv s → gatewayInv (exceptStateS (createSchema env config s services))) ∧
    (gatewayInv s → gatewayInv (exceptState (load env config s))) ∧
    gatewayInv (exceptState (constructGateway env config)) ∧
    (s.isReady = true → gatewayInv s →
      ∃ response s2, executor env config s rc cacheWriteOk = .ok (response, s2)) := by
  have hinit : gatewayInv initialState := fun h => Bool.noConfusion h
  refine ⟨hinit, createSchema_inv env config s services, ?_, ?_, ?_⟩
  · intro hinv
    simp only [load]
    split
    · rename_i hcond
      have hf : s.isReady = false := by revert hcond; cases s.isReady <;> simp
      split
      · rename_i e heq
        split at heq
        · exact Except.noConfusion heq
        · have hl := loadServiceDefinitions_schema_ready env config
            { s with log := s.log ++ [LogEntry.debug "Loading configuration for Gateway"] }
          rw [heq] at hl
          intro hready
          have hs' : s.isReady = true := hl.2 ▸ hready
          rw [hs'] at hf
          exact Bool.noConfusion hf
      · rename_i p heq
        have hp2 : p.2.isReady = s.isReady := by
          split at heq
          · rw [Except.ok.injEq] at heq
            subst heq
            rfl
          · have hl := loadServiceDefinitions_schema_ready env config
              { s with log := s.log ++ [LogEntry.debug "Loading configuration for Gateway"] }
            rw [heq] at hl
            simpa [exceptState] using hl.2
        have hinv2 : gatewayInv
            { p.2 with log := p.2.log ++ [LogEntry.debug "Configuration loaded for Gateway"] } := by
          intro hready
          have : s.isReady = true := hp2 ▸ hready
          rw [this] at hf
          exact Bool.noConfusion hf
        have hpre := createSchema_inv env config
          { p.2 with log := p.2.log ++ [LogEntry.debug "Configuration loaded for Gateway"] }
          p.1 hinv2
        split
        · rename_i e2 hcs
          rw [hcs] at hpre
          exact hpre
        · rename_i s3 hcs
          rw [hcs] at hpre
          exact hpre
    · exact hinv
  · simp only [constructGateway]
    split
    · rename_i e heq
      split at heq
      · rename_i defs hlocal
        have hpre := createSchema_inv env (resolveConfig env config)
          initialState defs hinit
        rw [heq] at hpre
        exact hpre
      · exact Except.noConfusion heq
    · rename_i s1 heq
      split at heq
      · rename_i defs hlocal
        have hpre := createSchema_inv env (resolveConfig env config)
          initialState defs hinit
        rw [heq] at hpre
        intro hready
        exact hpre hready
      · rw [Except.ok.injEq] at heq
        subst heq
        intro hready
        exact Bool.noConfusion hready
  · intro hready hinv2
    have hsome : s.schema.isSome = true := hinv2 hready
    cases hsc : s.schema with
    | none =>
      rw [hsc] at hsome
      exact Bool.noConfusion hsome
    | some schema =>
      exact ⟨_, _, by simp only [executor, hsc]; rfl⟩

/-- Witness for C10 at a concrete ready gateway: the executor returns a
result. -/
theorem C10_witness :
    ∃ response s2,
      executor envOkCompose defaultConfig stateReady rcPlain true =
        .ok (response, s2) :=
  (C10_ready_implies_schema envOkCompose defaultConfig stateReady [] rcPlain
    true).2.2.2.2 rfl (fun _ => rfl)

end ApolloGateway
